import Mathlib

/-
Verification development for the mock FTP server (ftpd.py).

The embedding models the protocol core: the virtual file store, the
command dispatcher and its per-verb handlers, passive-mode setup, the
data-connection handler, and the control-session loop.  Strings are
modelled as `List Char` (Python `str`), byte strings as `List Nat`,
timestamps as an opaque rendering (the result of
`strftime "%b %d %H:%M"`), and the fault-injection policy as a pair of
query functions.  Delays are modelled as integers; only their sign is
ever observed by the code (`delay > 0`).
-/

namespace FTPMock

/-- Convert a string literal to the `List Char` representation used for
Python strings throughout this development. -/
def chars (s : String) : List Char := s.data

/-- A timestamp, identified with its `strftime "%b %d %H:%M"` rendering,
which is the only observation the code ever makes of a datetime value. -/
structure DateTime where
  render : List Char
deriving DecidableEq

/-- `FTPResponse` dataclass: a reply code and a message. -/
structure FTPResponse where
  code : Nat
  message : List Char
deriving DecidableEq

/-- `FileInfo` dataclass. -/
structure FileInfo where
  name : List Char
  size : Nat
  modified : DateTime
  content : Option (List Nat)
deriving DecidableEq

/-- `DirectoryInfo` dataclass. -/
structure DirectoryInfo where
  files : List FileInfo
  dirs : List (List Char)
deriving DecidableEq

/-- The virtual file store: the `self.fs` dict, an insertion-ordered
mapping from absolute path to `DirectoryInfo`. -/
def VFS : Type := List (List Char × DirectoryInfo)

/-- Bytes of a Python byte-string literal. -/
def pyBytes (s : String) : List Nat := s.data.map Char.toNat

/-- Timestamp literal helper: `datetime(y,m,d)` rendered by
`strftime "%b %d %H:%M"`. -/
def dt (s : String) : DateTime := ⟨chars s⟩

def rootDir : DirectoryInfo :=
  ⟨[⟨chars "README.txt", 1024, dt "Jan 01 00:00", some (pyBytes "Welcome to FTP server")⟩,
    ⟨chars "data.bin", 2048, dt "Jan 02 00:00", some (pyBytes "Binary data")⟩],
   [chars "docs", chars "images"]⟩

def docsDir : DirectoryInfo :=
  ⟨[⟨chars "manual.pdf", 4096, dt "Jan 03 00:00", some (pyBytes "PDF content")⟩,
    ⟨chars "specs.doc", 3072, dt "Jan 04 00:00", some (pyBytes "Doc content")⟩],
   [chars "specs"]⟩

def specsDir : DirectoryInfo :=
  ⟨[⟨chars "api.md", 512, dt "Jan 05 00:00", some (pyBytes "API docs")⟩], []⟩

def imagesDir : DirectoryInfo :=
  ⟨[⟨chars "photo.jpg", 8192, dt "Jan 06 00:00", some (pyBytes "JPEG data")⟩,
    ⟨chars "icon.png", 1024, dt "Jan 07 00:00", some (pyBytes "PNG data")⟩],
   [chars "thumbnails"]⟩

def thumbsDir : DirectoryInfo :=
  ⟨[⟨chars "thumb1.jpg", 256, dt "Jan 08 00:00", some (pyBytes "Small JPEG")⟩], []⟩

/-- The fixture loaded by `VirtualFileSystem.__init__`. -/
def initialFS : VFS :=
  [(chars "/", rootDir),
   (chars "/docs", docsDir),
   (chars "/docs/specs", specsDir),
   (chars "/images", imagesDir),
   (chars "/images/thumbnails", thumbsDir)]

/-- `self.fs.get(path)`: first-match lookup in the store. -/
def get_dir_info : VFS → List Char → Option DirectoryInfo
  | [], _ => none
  | (k, d) :: rest, p => if p = k then some d else get_dir_info rest p

/-- Replace the `DirectoryInfo` stored under `key` (the effect of mutating
`dir_info.files` in place on the dict's value). -/
def vfsUpdate : VFS → List Char → DirectoryInfo → VFS
  | [], _, _ => []
  | (k, d) :: rest, key, dnew =>
    if k = key then (k, dnew) :: vfsUpdate rest key dnew
    else (k, d) :: vfsUpdate rest key dnew

/-- Python `path.split(sep)` on a single-character separator: always
returns at least one (possibly empty) piece. -/
def pySplit (sep : Char) : List Char → List (List Char)
  | [] => [[]]
  | c :: rest =>
    if c = sep then [] :: pySplit sep rest
    else
      match pySplit sep rest with
      | h :: t => (c :: h) :: t
      | [] => [[c]]

/-- Python `sep.join(parts)`. -/
def pyJoin (sep : List Char) : List (List Char) → List Char
  | [] => []
  | [x] => x
  | x :: xs => x ++ sep ++ pyJoin sep xs

/-- Python `s.rstrip('/')`. -/
def rstripSlash (s : List Char) : List Char :=
  (s.reverse.dropWhile fun c => decide (c = '/')).reverse

/-- Python `s.startswith('/')`. -/
def startsWithSlash (s : List Char) : Bool :=
  decide (s.head? = some '/')

/-- Python `s.endswith('/')`. -/
def endsWithSlash (s : List Char) : Bool :=
  decide (s.getLast? = some '/')

/-- Python whitespace test used by `str.strip()`. -/
def isPySpace (c : Char) : Bool :=
  decide (c = ' ') || decide (c = '\t') || decide (c = '\n') ||
  decide (c = '\r') || decide (c = '\x0b') || decide (c = '\x0c')

/-- Python `s.strip()`. -/
def pyStrip (s : List Char) : List Char :=
  ((s.dropWhile isPySpace).reverse.dropWhile isPySpace).reverse

/-- Python `s.upper()` (ASCII command verbs). -/
def pyUpper (s : List Char) : List Char := s.map Char.toUpper

/-- Python `'//' in s`. -/
def hasDS : List Char → Bool
  | a :: b :: t => if a = '/' ∧ b = '/' then true else hasDS (b :: t)
  | _ => false

/-- One pass of Python `s.replace('//', '/')`: non-overlapping matches,
left to right, scanning resumes after each replacement. -/
def replacePass : List Char → List Char
  | a :: b :: t =>
    if a = '/' ∧ b = '/' then '/' :: replacePass t
    else a :: replacePass (b :: t)
  | s => s

/-- The `while '//' in new_path:` loop of `_handle_cwd_command`, run with
explicit fuel.  Each iteration strictly shrinks the string, so
`s.length` iterations always reach the fixed point (proved below by
`collapseLoopFuel_eq`). -/
def collapseLoopFuel : Nat → List Char → List Char
  | 0, s => s
  | fuel + 1, s => if hasDS s then collapseLoopFuel fuel (replacePass s) else s

/-- The source's repeated-separator elimination loop. -/
def collapseLoop (s : List Char) : List Char := collapseLoopFuel s.length s

/-- Helper for `collapseRuns`: collapse with the previous character known. -/
def collapseGo : Char → List Char → List Char
  | _, [] => []
  | prev, c :: t =>
    if prev = '/' ∧ c = '/' then collapseGo prev t
    else c :: collapseGo c t

/-- Specification-side separator normalization: every run of repeated
slashes is collapsed to a single slash, in one direct pass. -/
def collapseRuns : List Char → List Char
  | [] => []
  | c :: t => c :: collapseGo c t

/-- `'/'.join(path.split('/')[:-1]) or '/'`: the parent-directory part
used by `get_file_info` and `store_file`. -/
def pyDirname (path : List Char) : List Char :=
  let d := pyJoin ['/'] (pySplit '/' path).dropLast
  if d = [] then chars "/" else d

/-- `path.split('/')[-1]`: the leaf name. -/
def pyBasename (path : List Char) : List Char :=
  (pySplit '/' path).getLastD []

/-- `VirtualFileSystem.get_file_info`: look up the parent directory, then
scan its files for the first entry with the leaf name. -/
def get_file_info (vfs : VFS) (path : List Char) : Option FileInfo :=
  match get_dir_info vfs (pyDirname path) with
  | some di => di.files.find? fun f => decide (f.name = pyBasename path)
  | none => none

/-- `VirtualFileSystem.store_file`: if the parent directory exists, append
a fresh `FileInfo` (size = content length, modified = now, the given
bytes) to its file list; otherwise do nothing. -/
def store_file (vfs : VFS) (path : List Char) (content : List Nat) (now : DateTime) : VFS :=
  match get_dir_info vfs (pyDirname path) with
  | some di =>
    vfsUpdate vfs (pyDirname path)
      ⟨di.files ++ [⟨pyBasename path, content.length, now, some content⟩], di.dirs⟩
  | none => vfs

/-- The fault-injection policy: `should_return_error` and
`get_command_delay`, queried by verb name. -/
structure MockBehavior where
  should_return_error : List Char → Bool
  get_command_delay : List Char → Int

/-- Observable interactions with the fault policy during one command:
a `should_return_error` query, a `get_command_delay` query, and an
`asyncio.sleep` suspension. -/
inductive FEvent where
  | qErr (verb : List Char)
  | qDelay (verb : List Char)
  | sleep (verb : List Char)
deriving DecidableEq

/-- The mutable per-session fields of `FTPCommandHandler`.  `data_server`
records whether the attribute holds a server object (its truthiness);
`pending_data` is the dynamically added listing attribute. -/
structure HandlerState where
  current_directory : List Char
  data_server : Bool
  store_mode : Bool
  pending_store_filename : Option (List Char)
  pending_data : Option (List Char)
deriving DecidableEq

/-- The initial state set up by `FTPCommandHandler.__init__`. -/
def initHandler : HandlerState :=
  ⟨chars "/", false, false, none, none⟩

/-- Result of one handler invocation: the reply, the updated session
state, and the fault-policy interaction trace. -/
structure HandlerOut where
  resp : FTPResponse
  st : HandlerState
  trace : List FEvent
deriving DecidableEq

/-- The configured bind host as its four dotted-quad octets
(`h1, h2, h3, h4 = self.host.split('.')`). -/
structure Host where
  h1 : List Char
  h2 : List Char
  h3 : List Char
  h4 : List Char

/-- The default host `127.0.0.1`. -/
def host0 : Host := ⟨chars "127", chars "0", chars "0", chars "1"⟩

/-- `random.randint(a, b)`: a uniformly chosen value in `[a, b]`,
determined here by the oracle `r`. -/
def randint (a b r : Nat) : Nat := a + r % (b - a + 1)

/-- Decimal rendering of a number, as Python string interpolation does. -/
def natChars (n : Nat) : List Char := Nat.toDigits 10 n

/-- The error-check, delay-query and sleep sequence that begins both the
dispatcher pipeline and every coroutine handler (taken in the branch
where `should_return_error` answered false). -/
def policyTrace (mb : MockBehavior) (verb : List Char) : List FEvent :=
  [FEvent.qErr verb, FEvent.qDelay verb] ++
    (if 0 < mb.get_command_delay verb then [FEvent.sleep verb] else [])

/-- `FTPCommandHandler._setup_passive_mode`. -/
def _setup_passive_mode (mb : MockBehavior) (host : Host) (st : HandlerState) (r : Nat) :
    HandlerOut :=
  if mb.should_return_error (chars "PASV") then
    ⟨⟨500, chars "PASV command failed"⟩, st, [FEvent.qErr (chars "PASV")]⟩
  else
    let port := randint 50000 50100 r
    ⟨⟨227, chars "Entering Passive Mode (" ++ host.h1 ++ [','] ++ host.h2 ++ [','] ++
        host.h3 ++ [','] ++ host.h4 ++ [','] ++ natChars (port / 256) ++ [','] ++
        natChars (port % 256) ++ [')']⟩,
     { st with data_server := true }, policyTrace mb (chars "PASV")⟩

/-- The path-resolution steps of `_handle_cwd_command` for argument `..`:
strip trailing slashes, split, drop the last segment, rejoin, defaulting
to the root when the join is empty (`or "/"`). -/
def popSegment (cwd : List Char) : List Char :=
  if cwd = chars "/" then chars "/"
  else
    let np := pyJoin ['/'] (pySplit '/' (rstripSlash cwd)).dropLast
    if np = [] then chars "/" else np

/-- The case analysis of `_handle_cwd_command` on its argument: `..`,
absolute, or concatenation onto the current directory (with a slash
inserted only when the current directory does not already end in one). -/
def joinArg (cwd path : List Char) : List Char :=
  if path = chars ".." then popSegment cwd
  else if startsWithSlash path then path
  else if endsWithSlash cwd then cwd ++ path
  else cwd ++ '/' :: path

/-- `if not new_path.startswith('/'): new_path = '/' + new_path`. -/
def forceLead (s : List Char) : List Char :=
  if startsWithSlash s then s else '/' :: s

/-- `if new_path != '/' and new_path.endswith('/'): new_path = new_path[:-1]`. -/
def stripTrail (s : List Char) : List Char :=
  if s ≠ chars "/" ∧ endsWithSlash s then s.dropLast else s

/-- The full path resolution of `_handle_cwd_command` (lines before the
store lookup): the `..` / absolute / relative cases, then the
`while '//'` collapse loop, the forced leading slash, and the
trailing-slash strip (unless the result is the root). -/
def resolve_cwd (cwd path : List Char) : List Char :=
  stripTrail (forceLead (collapseLoop (joinArg cwd path)))

/-- `FTPCommandHandler._handle_cwd_command`. -/
def _handle_cwd_command (mb : MockBehavior) (vfs : VFS) (st : HandlerState)
    (path : List Char) : HandlerOut :=
  if mb.should_return_error (chars "CWD") then
    ⟨⟨550, chars "CWD command failed"⟩, st, [FEvent.qErr (chars "CWD")]⟩
  else if (get_dir_info vfs (resolve_cwd st.current_directory path)).isSome then
    ⟨⟨250, chars "Directory successfully changed."⟩,
     { st with current_directory := resolve_cwd st.current_directory path },
     policyTrace mb (chars "CWD")⟩
  else
    ⟨⟨550, chars "Directory not found."⟩, st, policyTrace mb (chars "CWD")⟩

/-- `FTPCommandHandler._handle_stor_command`.  Note the injected-fault
reply is 550 here (the dispatcher's own check replies 500 first when the
policy is stable across the command). -/
def _handle_stor_command (mb : MockBehavior) (st : HandlerState) (filename : List Char) :
    HandlerOut :=
  if mb.should_return_error (chars "STOR") then
    ⟨⟨550, chars "STOR command failed"⟩, st, [FEvent.qErr (chars "STOR")]⟩
  else if st.data_server then
    ⟨⟨150, chars "Ok to send data"⟩,
     { st with store_mode := true, pending_store_filename := some filename },
     policyTrace mb (chars "STOR")⟩
  else
    ⟨⟨425, chars "Use PASV first"⟩, st, policyTrace mb (chars "STOR")⟩

/-- `self.current_directory`, with a trailing slash added when missing;
used to build the lookup path for a file name. -/
def cwdSlash (st : HandlerState) : List Char :=
  if endsWithSlash st.current_directory then st.current_directory
  else st.current_directory ++ ['/']

/-- `FTPCommandHandler._format_directory_entry`. -/
def _format_directory_entry (vfs : VFS) (st : HandlerState) (now : DateTime)
    (name : List Char) (is_dir : Bool) : List Char :=
  if is_dir then
    chars "drwxr-xr-x 2 owner group 4096 " ++ now.render ++ [' '] ++ name
  else
    match get_file_info vfs (cwdSlash st ++ name) with
    | some fi =>
      chars "-rw-r--r-- 1 owner group " ++ natChars fi.size ++ [' '] ++
        fi.modified.render ++ [' '] ++ name
    | none =>
      chars "-rw-r--r-- 1 owner group 0 " ++ now.render ++ [' '] ++ name

/-- `FTPCommandHandler.get_directory_listing`. -/
def get_directory_listing (vfs : VFS) (st : HandlerState) (now : DateTime)
    (path : List Char) : List Char :=
  let base := [chars "drwxrwxrwx 3 owner group 4096 Jan 01 18:00 .",
               chars "drwxrwxrwx 3 owner group 4096 Jan 01 18:00 .."]
  let result := base ++
    (match get_dir_info vfs path with
     | some di =>
       di.dirs.map (fun d => _format_directory_entry vfs st now d true) ++
         di.files.map (fun f => _format_directory_entry vfs st now f.name false)
     | none => [])
  pyJoin (chars "\r\n") result ++ chars "\r\n"

/-- `FTPCommandHandler._handle_list_command`. -/
def _handle_list_command (mb : MockBehavior) (vfs : VFS) (st : HandlerState)
    (now : DateTime) : HandlerOut :=
  if mb.should_return_error (chars "LIST") then
    ⟨⟨500, chars "LIST command failed"⟩, st, [FEvent.qErr (chars "LIST")]⟩
  else if st.data_server then
    ⟨⟨150, chars "Opening ASCII mode data connection for file list"⟩,
     { st with pending_data := some (get_directory_listing vfs st now st.current_directory) },
     policyTrace mb (chars "LIST")⟩
  else
    ⟨⟨425, chars "Use PASV first"⟩, st, policyTrace mb (chars "LIST")⟩

/-- `FTPCommandHandler._handle_quit_command`.  Closing the data server
does not clear the attribute, so the state is unchanged. -/
def _handle_quit_command (mb : MockBehavior) (st : HandlerState) : HandlerOut :=
  if mb.should_return_error (chars "QUIT") then
    ⟨⟨500, chars "QUIT command failed"⟩, st, [FEvent.qErr (chars "QUIT")]⟩
  else
    ⟨⟨221, chars "Goodbye"⟩, st, policyTrace mb (chars "QUIT")⟩

/-- The nine keys of the `command_handlers` dict. -/
inductive Verb where
  | vUSER | vPASS | vPWD | vTYPE | vPASV | vLIST | vCWD | vSTOR | vQUIT
deriving DecidableEq

/-- `command_handlers.get(command)`. -/
def parseVerb (cmd : List Char) : Option Verb :=
  if cmd = chars "USER" then some Verb.vUSER
  else if cmd = chars "PASS" then some Verb.vPASS
  else if cmd = chars "PWD" then some Verb.vPWD
  else if cmd = chars "TYPE" then some Verb.vTYPE
  else if cmd = chars "PASV" then some Verb.vPASV
  else if cmd = chars "LIST" then some Verb.vLIST
  else if cmd = chars "CWD" then some Verb.vCWD
  else if cmd = chars "STOR" then some Verb.vSTOR
  else if cmd = chars "QUIT" then some Verb.vQUIT
  else none

/-- Execution of the matched handler (or the unknown-command reply). -/
def dispatchVerb (mb : MockBehavior) (host : Host) (vfs : VFS) (st : HandlerState)
    (r : Nat) (now : DateTime) (args : List Char) : Option Verb → HandlerOut
  | some Verb.vUSER => ⟨⟨331, chars "User name okay, need password"⟩, st, []⟩
  | some Verb.vPASS => ⟨⟨230, chars "User logged in"⟩, st, []⟩
  | some Verb.vPWD =>
    ⟨⟨257, '"' :: st.current_directory ++ chars "\" is current directory"⟩, st, []⟩
  | some Verb.vTYPE => ⟨⟨200, chars "Type set to I"⟩, st, []⟩
  | some Verb.vPASV => _setup_passive_mode mb host st r
  | some Verb.vLIST => _handle_list_command mb vfs st now
  | some Verb.vCWD => _handle_cwd_command mb vfs st args
  | some Verb.vSTOR => _handle_stor_command mb st args
  | some Verb.vQUIT => _handle_quit_command mb st
  | none => ⟨⟨500, chars "Unknown command"⟩, st, []⟩

/-- `FTPCommandHandler.handle_command` after the verb has been
uppercased: the dispatcher-level fault check and delay, then the verb
dispatch. -/
def handleUpper (mb : MockBehavior) (host : Host) (vfs : VFS) (st : HandlerState)
    (r : Nat) (now : DateTime) (cmd args : List Char) : HandlerOut :=
  if mb.should_return_error cmd then
    ⟨⟨500, cmd ++ chars " command failed"⟩, st, [FEvent.qErr cmd]⟩
  else
    let out := dispatchVerb mb host vfs st r now args (parseVerb cmd)
    ⟨out.resp, out.st, policyTrace mb cmd ++ out.trace⟩

/-- `FTPCommandHandler.handle_command`. -/
def handle_command (mb : MockBehavior) (host : Host) (vfs : VFS) (st : HandlerState)
    (r : Nat) (now : DateTime) (command args : List Char) : HandlerOut :=
  handleUpper mb host vfs st r now (pyUpper command) args

/-- `FTPCommandHandler.handle_data_connection`: one accepted data
connection, either completing a pending store or draining a pending
listing.  (When `store_mode` is set without a pending filename — a state
the command handlers never produce — the source would raise; we leave
the state unchanged.) -/
def handle_data_connection (vfs : VFS) (st : HandlerState) (now : DateTime)
    (content : List Nat) : VFS × HandlerState :=
  if st.store_mode then
    match st.pending_store_filename with
    | some fn =>
      (store_file vfs (cwdSlash st ++ fn) content now,
       { st with store_mode := false, pending_store_filename := none })
    | none => (vfs, st)
  else if st.pending_data.isSome then
    (vfs, { st with pending_data := none })
  else (vfs, st)

/-- One session's combined state: the shared store and the handler's
per-session fields. -/
structure Session where
  vfs : VFS
  st : HandlerState

/-- An externally triggered step of a session: a control-channel command
(with its policy snapshot, host, port oracle and clock) or an inbound
data connection carrying bytes. -/
inductive SessionStep where
  | control (mb : MockBehavior) (host : Host) (r : Nat) (now : DateTime)
      (command args : List Char)
  | data (now : DateTime) (content : List Nat)

def stepSession (s : Session) : SessionStep → Session
  | SessionStep.control mb host r now c a =>
    ⟨s.vfs, (handle_command mb host s.vfs s.st r now c a).st⟩
  | SessionStep.data now content =>
    let p := handle_data_connection s.vfs s.st now content
    ⟨p.1, p.2⟩

/-- The state of a freshly accepted session over the fixture store. -/
def initSession : Session := ⟨initialFS, initHandler⟩

/-- All reachable session states: fold the steps from the initial state. -/
def runSession (steps : List SessionStep) : Session :=
  steps.foldl stepSession initSession

/-- One iteration's worth of input to the `handle_client` read loop. -/
structure LoopIn where
  mb : MockBehavior
  host : Host
  r : Nat
  now : DateTime
  line : List Char

/-- The `handle_client` read-dispatch-reply loop, recording every control
reply written, tagged with whether it is the synthetic 226 the loop adds
after a 150 reply. -/
def clientLoop : Session → List LoopIn → List (Bool × FTPResponse)
  | _, [] => []
  | s, i :: rest =>
    let data := pyStrip i.line
    if data = [] then []
    else
      let command := data.takeWhile fun c => c != ' '
      let args := pyStrip (data.drop command.length)
      let out := handle_command i.mb i.host s.vfs s.st i.r i.now command args
      let tail := if pyUpper command = chars "QUIT" then []
                  else clientLoop ⟨s.vfs, out.st⟩ rest
      (false, out.resp) ::
        (if out.resp.code = 150 then (true, ⟨226, chars "Transfer complete"⟩) :: tail
         else tail)

/-- Everything `handle_client` writes on the control connection: the
greeting, then the loop's replies. -/
def clientWrites (inputs : List LoopIn) : List (Bool × FTPResponse) :=
  (false, ⟨220, chars "Welcome to FTP Mock Server"⟩) :: clientLoop initSession inputs

/-- Recognizer for the synthetic `226 Transfer complete` write. -/
def isSynth226 (p : Bool × FTPResponse) : Bool :=
  p.1 && decide (p.2 = ⟨226, chars "Transfer complete"⟩)

/-- The 150/226 pairing discipline over a write sequence: no reply is
tagged synthetic except immediately after a 150 reply, and every 150
reply is immediately followed by a synthetic `226 Transfer complete`. -/
def goodWrites : List (Bool × FTPResponse) → Bool
  | [] => true
  | [(tag, r)] => !tag && decide (r.code ≠ 150)
  | (tag, r) :: p :: rest =>
    if tag then false
    else if r.code = 150 then isSynth226 p && goodWrites rest
    else goodWrites (p :: rest)

/-- Number of `should_return_error` queries in a trace. -/
def countQErr (tr : List FEvent) : Nat :=
  (tr.filter fun e => match e with | FEvent.qErr _ => true | _ => false).length

/-- Number of `get_command_delay` queries in a trace. -/
def countQDelay (tr : List FEvent) : Nat :=
  (tr.filter fun e => match e with | FEvent.qDelay _ => true | _ => false).length

/-- Number of `asyncio.sleep` suspensions in a trace. -/
def countSleep (tr : List FEvent) : Nat :=
  (tr.filter fun e => match e with | FEvent.sleep _ => true | _ => false).length

/-- A policy that never injects faults or delays. -/
def mb0 : MockBehavior := ⟨fun _ => false, fun _ => 0⟩

/-- A policy whose forced-error flag is set for every verb. -/
def mbAll : MockBehavior := ⟨fun _ => true, fun _ => 0⟩

/-- A fixed clock value for concrete runs. -/
def now0 : DateTime := ⟨chars "Feb 02 12:00"⟩

/-- The CWD target as the claim words it: `..` pops the last path
segment (root stays root), a leading slash means absolute, and any other
argument is concatenated to the current working directory with a single
separating slash. -/
def joinSpec (cwd path : List Char) : List Char :=
  if path = chars ".." then popSegment cwd
  else if startsWithSlash path then path
  else cwd ++ '/' :: path

/-- Normalization as the claim words it: collapse every run of repeated
slashes to one, force a single leading slash, and strip a trailing slash
unless the result is the root. -/
def normalizeSpec (s : List Char) : List Char :=
  stripTrail (forceLead (collapseRuns s))

/-- The claim's description of the CWD path-resolution algorithm. -/
def resolveSpec (cwd path : List Char) : List Char :=
  normalizeSpec (joinSpec cwd path)

/-- The session invariant: the store's key set is still the fixture's,
and the working directory is one of its keys. -/
def SessInv (s : Session) : Prop :=
  (∀ p, (get_dir_info s.vfs p).isSome = (get_dir_info initialFS p).isSome) ∧
    (get_dir_info s.vfs s.st.current_directory).isSome = true

/-- A sequence of lines, each terminated by the separator. -/
def terminateAll (sep : List Char) : List (List Char) → List Char
  | [] => []
  | x :: r => x ++ sep ++ terminateAll sep r

/-- The claim's line for a child directory: directory-style permissions
and a fixed size. -/
def specDirLine (now : DateTime) (name : List Char) : List Char :=
  chars "drwxr-xr-x 2 owner group 4096 " ++ now.render ++ [' '] ++ name

/-- The claim's line for a file entry: file-style permissions, the file's
real size and timestamp when it is found by lookup, else a zero-size
placeholder. -/
def specFileLine (vfs : VFS) (st : HandlerState) (now : DateTime) (f : FileInfo) :
    List Char :=
  match get_file_info vfs (cwdSlash st ++ f.name) with
  | some fi =>
    chars "-rw-r--r-- 1 owner group " ++ natChars fi.size ++ [' '] ++
      fi.modified.render ++ [' '] ++ f.name
  | none =>
    chars "-rw-r--r-- 1 owner group 0 " ++ now.render ++ [' '] ++ f.name

/-- The verbs of the dispatch table. -/
def recognizedVerbs : List (List Char) :=
  [chars "USER", chars "PASS", chars "PWD", chars "TYPE", chars "PASV",
   chars "LIST", chars "CWD", chars "STOR", chars "QUIT"]


theorem replacePass_length_le : ∀ s : List Char, (replacePass s).length ≤ s.length
  | [] => by simp [replacePass]
  | [a] => by simp [replacePass]
  | a :: b :: t => by
    have ih1 := replacePass_length_le t
    have ih2 := replacePass_length_le (b :: t)
    by_cases hab : a = '/' ∧ b = '/'
    · simp only [replacePass, if_pos hab, List.length_cons]
      omega
    · simp only [replacePass, if_neg hab, List.length_cons]
      simp only [List.length_cons] at ih2
      omega

theorem hasDS_replacePass_lt : ∀ s : List Char,
    hasDS s = true → (replacePass s).length < s.length
  | [] => by intro h; simp [hasDS] at h
  | [a] => by intro h; simp [hasDS] at h
  | a :: b :: t => by
    intro h
    by_cases hab : a = '/' ∧ b = '/'
    · have hle := replacePass_length_le t
      simp only [replacePass, if_pos hab, List.length_cons]
      omega
    · have h' : hasDS (b :: t) = true := by
        simpa [hasDS, if_neg hab] using h
      have ih := hasDS_replacePass_lt (b :: t) h'
      simp only [replacePass, if_neg hab, List.length_cons]
      simp only [List.length_cons] at ih
      omega

theorem collapseGo_slash : ∀ t : List Char,
    collapseGo '/' t = collapseRuns (t.dropWhile fun c => decide (c = '/'))
  | [] => by simp [collapseGo, collapseRuns]
  | c :: t => by
    by_cases hc : c = '/'
    · subst hc
      have ih := collapseGo_slash t
      simpa [collapseGo] using ih
    · simp [collapseGo, collapseRuns, hc]

theorem collapseGo_of_ne (c : Char) (hc : ¬ c = '/') (t : List Char) :
    collapseGo c t = collapseRuns t := by
  cases t with
  | nil => rfl
  | cons d t => simp [collapseGo, collapseRuns, hc]

theorem replacePass_cons (b : Char) (t : List Char) :
    ∃ u, replacePass (b :: t) = b :: u := by
  cases t with
  | nil => exact ⟨[], rfl⟩
  | cons c t =>
    by_cases h : b = '/' ∧ c = '/'
    · refine ⟨replacePass t, ?_⟩
      rw [show b = '/' from h.1]
      simp [replacePass, h]
    · exact ⟨replacePass (c :: t), by simp [replacePass, h]⟩

theorem collapseRuns_replacePass : ∀ s : List Char,
    collapseRuns (replacePass s) = collapseRuns s ∧
      collapseRuns ((replacePass s).dropWhile fun c => decide (c = '/')) =
        collapseRuns (s.dropWhile fun c => decide (c = '/'))
  | [] => ⟨rfl, rfl⟩
  | [a] => ⟨rfl, rfl⟩
  | a :: b :: t => by
    have iht := collapseRuns_replacePass t
    have ihbt := collapseRuns_replacePass (b :: t)
    by_cases hab : a = '/' ∧ b = '/'
    · obtain ⟨ha, hb⟩ := hab
      subst ha; subst hb
      constructor
      · show collapseRuns (replacePass ('/' :: '/' :: t)) = _
        rw [show replacePass ('/' :: '/' :: t) = '/' :: replacePass t from by
          simp [replacePass]]
        simp only [collapseRuns]
        rw [collapseGo_slash]
        rw [show collapseGo '/' ('/' :: t) = collapseGo '/' t from by simp [collapseGo]]
        rw [collapseGo_slash]
        rw [iht.2]
      · rw [show replacePass ('/' :: '/' :: t) = '/' :: replacePass t from by
          simp [replacePass]]
        rw [show (('/' :: replacePass t).dropWhile fun c => decide (c = '/')) =
              (replacePass t).dropWhile fun c => decide (c = '/') from by
          simp [List.dropWhile]]
        rw [show (('/' :: '/' :: t).dropWhile fun c => decide (c = '/')) =
              t.dropWhile fun c => decide (c = '/') from by
          simp [List.dropWhile]]
        exact iht.2
    · obtain ⟨u, hu⟩ := replacePass_cons b t
      have hgo : collapseGo b u = collapseGo b t := by
        have h1 := ihbt.1
        rw [hu] at h1
        simp only [collapseRuns] at h1
        exact (List.cons.injEq _ _ _ _).mp h1 |>.2
      constructor
      · rw [show replacePass (a :: b :: t) = a :: replacePass (b :: t) from by
          simp [replacePass, hab], hu]
        simp only [collapseRuns, collapseGo, if_neg hab, hgo]
      · by_cases ha : a = '/'
        · have hb : ¬ b = '/' := fun hb => hab ⟨ha, hb⟩
          subst ha
          rw [show replacePass ('/' :: b :: t) = '/' :: replacePass (b :: t) from by
            simp [replacePass, hb], hu]
          rw [show (('/' :: b :: u).dropWhile fun c => decide (c = '/')) = b :: u from by
            simp [List.dropWhile, hb]]
          rw [show (('/' :: b :: t).dropWhile fun c => decide (c = '/')) = b :: t from by
            simp [List.dropWhile, hb]]
          have h1 := ihbt.1
          rw [hu] at h1
          exact h1
        · rw [show replacePass (a :: b :: t) = a :: replacePass (b :: t) from by
            simp [replacePass, hab], hu]
          rw [show ((a :: b :: u).dropWhile fun c => decide (c = '/')) = a :: b :: u from by
            simp [List.dropWhile, ha]]
          rw [show ((a :: b :: t).dropWhile fun c => decide (c = '/')) = a :: b :: t from by
            simp [List.dropWhile, ha]]
          simp only [collapseRuns, collapseGo, if_neg hab, hgo]

theorem hasDS_false_collapseRuns : ∀ s : List Char, hasDS s = false → collapseRuns s = s
  | [] => fun _ => rfl
  | [a] => fun _ => by simp [collapseRuns, collapseGo]
  | a :: b :: t => fun h => by
    have hab : ¬ (a = '/' ∧ b = '/') := by
      intro hc
      simp [hasDS, if_pos hc] at h
    have h' : hasDS (b :: t) = false := by
      simpa [hasDS, if_neg hab] using h
    have ih := hasDS_false_collapseRuns (b :: t) h'
    simp only [collapseRuns] at ih
    simp only [collapseRuns, collapseGo, if_neg hab, ih]

theorem collapseLoopFuel_eq : ∀ (fuel : Nat) (s : List Char),
    s.length ≤ fuel → collapseLoopFuel fuel s = collapseRuns s
  | 0, s, h => by
    have hs : s = [] := List.eq_nil_of_length_eq_zero (Nat.le_zero.mp h)
    subst hs; rfl
  | fuel + 1, s, h => by
    simp only [collapseLoopFuel]
    by_cases hd : hasDS s = true
    · rw [if_pos hd]
      have hlt := hasDS_replacePass_lt s hd
      have heq := collapseLoopFuel_eq fuel (replacePass s) (by omega)
      rw [heq, (collapseRuns_replacePass s).1]
    · rw [if_neg hd]
      exact (hasDS_false_collapseRuns s (by simpa using hd)).symm

/-- The source's `while '//' in new_path` loop computes exactly the
single-pass run collapse. -/
theorem collapseLoop_eq_collapseRuns (s : List Char) : collapseLoop s = collapseRuns s :=
  collapseLoopFuel_eq s.length s le_rfl

theorem collapseGo_doubleslash : ∀ (zs : List Char) (prev : Char) (ys : List Char),
    collapseGo prev (zs ++ '/' :: '/' :: ys) = collapseGo prev (zs ++ '/' :: ys)
  | [], prev, ys => by
    by_cases hp : prev = '/'
    · simp [collapseGo, hp]
    · simp [collapseGo, hp]
  | z :: zs, prev, ys => by
    by_cases h : prev = '/' ∧ z = '/'
    · have ih := collapseGo_doubleslash zs prev ys
      simp only [List.cons_append, collapseGo, if_pos h, List.append_eq]
      exact ih
    · have ih := collapseGo_doubleslash zs z ys
      simp only [List.cons_append, collapseGo, if_neg h, List.append_eq]
      rw [ih]

/-- Inserting an extra slash right after an existing one does not change
the run-collapsed string. -/
theorem collapseRuns_doubleslash (zs ys : List Char) :
    collapseRuns (zs ++ '/' :: '/' :: ys) = collapseRuns (zs ++ '/' :: ys) := by
  cases zs with
  | nil => simp [collapseRuns, collapseGo]
  | cons z zs =>
    simp only [List.cons_append, collapseRuns]
    rw [collapseGo_doubleslash]

theorem endsWithSlash_decomp (s : List Char) (h : endsWithSlash s = true) :
    s.dropLast ++ ['/'] = s := by
  have h' : s.getLast? = some '/' := of_decide_eq_true h
  exact List.dropLast_append_getLast? '/' h'

/-- The handler's resolution (conditional slash insertion plus the
`while '//'` loop) agrees with the claim's description (unconditional
single separating slash plus one-pass run collapsing) on every input. -/
theorem resolve_cwd_eq_spec (cwd path : List Char) :
    resolve_cwd cwd path = resolveSpec cwd path := by
  unfold resolve_cwd resolveSpec normalizeSpec
  rw [collapseLoop_eq_collapseRuns]
  unfold joinArg joinSpec
  by_cases hdot : path = chars ".."
  · rw [if_pos hdot, if_pos hdot]
  · rw [if_neg hdot, if_neg hdot]
    by_cases habs : startsWithSlash path = true
    · rw [if_pos habs, if_pos habs]
    · rw [if_neg habs, if_neg habs]
      by_cases hend : endsWithSlash cwd = true
      · rw [if_pos hend]
        have hc := endsWithSlash_decomp cwd hend
        have hkey : collapseRuns (cwd ++ path) = collapseRuns (cwd ++ '/' :: path) := by
          conv_lhs => rw [← hc]
          conv_rhs => rw [← hc]
          rw [List.append_assoc, List.append_assoc]
          simp only [List.singleton_append]
          exact (collapseRuns_doubleslash _ _).symm
        rw [hkey]
      · rw [if_neg hend]

theorem vfsUpdate_isSome : ∀ (vfs : VFS) (k : List Char) (d : DirectoryInfo)
    (p : List Char),
    (get_dir_info (vfsUpdate vfs k d) p).isSome = (get_dir_info vfs p).isSome
  | [], _, _, _ => rfl
  | (k0, d0) :: rest, k, d, p => by
    by_cases hk : k0 = k
    · by_cases hp : p = k0
      · simp [vfsUpdate, get_dir_info, hk, hp]
      · simp only [vfsUpdate, if_pos hk, get_dir_info, if_neg hp]
        exact vfsUpdate_isSome rest k d p
    · by_cases hp : p = k0
      · simp [vfsUpdate, get_dir_info, hk, hp]
      · simp only [vfsUpdate, if_neg hk, get_dir_info, if_neg hp]
        exact vfsUpdate_isSome rest k d p

theorem vfsUpdate_self : ∀ (vfs : VFS) (k : List Char) (d dold : DirectoryInfo),
    get_dir_info vfs k = some dold → get_dir_info (vfsUpdate vfs k d) k = some d
  | [], _, _, _ => by intro h; simp [get_dir_info] at h
  | (k0, d0) :: rest, k, d, dold => by
    intro h
    by_cases hk : k0 = k
    · simp [vfsUpdate, get_dir_info, hk]
    · have hk' : ¬ k = k0 := fun hx => hk hx.symm
      simp only [get_dir_info, if_neg hk'] at h
      simp only [vfsUpdate, if_neg hk, get_dir_info, if_neg hk']
      exact vfsUpdate_self rest k d dold h

theorem vfsUpdate_other : ∀ (vfs : VFS) (k : List Char) (d : DirectoryInfo)
    (p : List Char), p ≠ k → get_dir_info (vfsUpdate vfs k d) p = get_dir_info vfs p
  | [], _, _, _, _ => rfl
  | (k0, d0) :: rest, k, d, p, hp => by
    by_cases hk : k0 = k
    · subst hk
      simp only [vfsUpdate, if_pos rfl, get_dir_info, if_neg hp]
      exact vfsUpdate_other rest k0 d p hp
    · by_cases hpk : p = k0
      · simp [vfsUpdate, get_dir_info, hk, hpk]
      · simp only [vfsUpdate, if_neg hk, get_dir_info, if_neg hpk]
        exact vfsUpdate_other rest k d p hp

/-- `store_file` never adds or removes a directory key. -/
theorem store_file_isSome (vfs : VFS) (path : List Char) (content : List Nat)
    (now : DateTime) (p : List Char) :
    (get_dir_info (store_file vfs path content now) p).isSome =
      (get_dir_info vfs p).isSome := by
  unfold store_file
  cases hd : get_dir_info vfs (pyDirname path) with
  | none => rfl
  | some di => exact vfsUpdate_isSome vfs (pyDirname path) _ p

theorem handleUpper_error (mb : MockBehavior) (host : Host) (vfs : VFS)
    (st : HandlerState) (r : Nat) (now : DateTime) (cmd args : List Char)
    (h : mb.should_return_error cmd = true) :
    handleUpper mb host vfs st r now cmd args =
      ⟨⟨500, cmd ++ chars " command failed"⟩, st, [FEvent.qErr cmd]⟩ := by
  simp [handleUpper, h]

theorem handleUpper_dispatch (mb : MockBehavior) (host : Host) (vfs : VFS)
    (st : HandlerState) (r : Nat) (now : DateTime) (cmd args : List Char)
    (h : mb.should_return_error cmd = false) :
    handleUpper mb host vfs st r now cmd args =
      ⟨(dispatchVerb mb host vfs st r now args (parseVerb cmd)).resp,
       (dispatchVerb mb host vfs st r now args (parseVerb cmd)).st,
       policyTrace mb cmd ++ (dispatchVerb mb host vfs st r now args (parseVerb cmd)).trace⟩ := by
  simp [handleUpper, h]

theorem setup_passive_cwd (mb : MockBehavior) (host : Host) (st : HandlerState) (r : Nat) :
    (_setup_passive_mode mb host st r).st.current_directory = st.current_directory := by
  unfold _setup_passive_mode
  split <;> rfl

theorem list_cwd (mb : MockBehavior) (vfs : VFS) (st : HandlerState) (now : DateTime) :
    (_handle_list_command mb vfs st now).st.current_directory = st.current_directory := by
  unfold _handle_list_command
  split
  · rfl
  · split <;> rfl

theorem stor_cwd (mb : MockBehavior) (st : HandlerState) (filename : List Char) :
    (_handle_stor_command mb st filename).st.current_directory = st.current_directory := by
  unfold _handle_stor_command
  split
  · rfl
  · split <;> rfl

theorem quit_cwd (mb : MockBehavior) (st : HandlerState) :
    (_handle_quit_command mb st).st.current_directory = st.current_directory := by
  unfold _handle_quit_command
  split <;> rfl

theorem cwd_handler_key (mb : MockBehavior) (vfs : VFS) (st : HandlerState)
    (path : List Char) (h : (get_dir_info vfs st.current_directory).isSome = true) :
    (get_dir_info vfs (_handle_cwd_command mb vfs st path).st.current_directory).isSome
      = true := by
  unfold _handle_cwd_command
  split
  · exact h
  · split
    · rename_i hsome
      exact hsome
    · exact h

/-- The dispatcher can only move the working directory to a path that is
present in the store. -/
theorem handle_command_key (mb : MockBehavior) (host : Host) (vfs : VFS)
    (st : HandlerState) (r : Nat) (now : DateTime) (c a : List Char)
    (h : (get_dir_info vfs st.current_directory).isSome = true) :
    (get_dir_info vfs
      (handle_command mb host vfs st r now c a).st.current_directory).isSome = true := by
  unfold handle_command
  by_cases herr : mb.should_return_error (pyUpper c) = true
  · rw [handleUpper_error mb host vfs st r now (pyUpper c) a herr]
    exact h
  · rw [handleUpper_dispatch mb host vfs st r now (pyUpper c) a
      (Bool.eq_false_iff.mpr herr)]
    cases hv : parseVerb (pyUpper c) with
    | none => exact h
    | some v =>
      cases v with
      | vUSER => exact h
      | vPASS => exact h
      | vPWD => exact h
      | vTYPE => exact h
      | vPASV =>
        show (get_dir_info vfs
          (_setup_passive_mode mb host st r).st.current_directory).isSome = true
        rw [setup_passive_cwd]
        exact h
      | vLIST =>
        show (get_dir_info vfs
          (_handle_list_command mb vfs st now).st.current_directory).isSome = true
        rw [list_cwd]
        exact h
      | vCWD =>
        exact cwd_handler_key mb vfs st a h
      | vSTOR =>
        show (get_dir_info vfs
          (_handle_stor_command mb st a).st.current_directory).isSome = true
        rw [stor_cwd]
        exact h
      | vQUIT =>
        show (get_dir_info vfs
          (_handle_quit_command mb st).st.current_directory).isSome = true
        rw [quit_cwd]
        exact h

theorem handle_data_cwd (vfs : VFS) (st : HandlerState) (now : DateTime)
    (content : List Nat) :
    (handle_data_connection vfs st now content).2.current_directory =
      st.current_directory := by
  unfold handle_data_connection
  split
  · cases st.pending_store_filename <;> rfl
  · split <;> rfl

theorem handle_data_isSome (vfs : VFS) (st : HandlerState) (now : DateTime)
    (content : List Nat) (p : List Char) :
    (get_dir_info (handle_data_connection vfs st now content).1 p).isSome =
      (get_dir_info vfs p).isSome := by
  unfold handle_data_connection
  split
  · cases st.pending_store_filename with
    | none => rfl
    | some fn => exact store_file_isSome vfs _ content now p
  · split <;> rfl

theorem stepSession_inv (s : Session) (e : SessionStep) (h : SessInv s) :
    SessInv (stepSession s e) := by
  obtain ⟨hkeys, hcwd⟩ := h
  cases e with
  | control mb host r now c a =>
    exact ⟨hkeys, handle_command_key mb host s.vfs s.st r now c a hcwd⟩
  | data now content =>
    constructor
    · intro p
      show (get_dir_info (handle_data_connection s.vfs s.st now content).1 p).isSome = _
      rw [handle_data_isSome]
      exact hkeys p
    · show (get_dir_info (handle_data_connection s.vfs s.st now content).1
        (handle_data_connection s.vfs s.st now content).2.current_directory).isSome = true
      rw [handle_data_cwd, handle_data_isSome]
      exact hcwd

theorem foldl_inv : ∀ (steps : List SessionStep) (s : Session),
    SessInv s → SessInv (steps.foldl stepSession s)
  | [], _, h => h
  | e :: steps, s, h => foldl_inv steps (stepSession s e) (stepSession_inv s e h)

/-- Every reachable session state satisfies the invariant. -/
theorem runSession_inv (steps : List SessionStep) : SessInv (runSession steps) :=
  foldl_inv steps initSession ⟨fun _ => rfl, by decide⟩

/-- The only keys the fixture store holds. -/
theorem fixture_keys (p : List Char) (h : (get_dir_info initialFS p).isSome = true) :
    p = chars "/" ∨ p = chars "/docs" ∨ p = chars "/docs/specs" ∨
      p = chars "/images" ∨ p = chars "/images/thumbnails" := by
  simp only [initialFS, get_dir_info] at h
  split_ifs at h with h1 h2 h3 h4 h5
  · exact Or.inl h1
  · exact Or.inr (Or.inl h2)
  · exact Or.inr (Or.inr (Or.inl h3))
  · exact Or.inr (Or.inr (Or.inr (Or.inl h4)))
  · exact Or.inr (Or.inr (Or.inr (Or.inr h5)))
  · simp at h

theorem pyJoin_terminate (sep : List Char) : ∀ (x : List Char) (l : List (List Char)),
    pyJoin sep (x :: l) ++ sep = terminateAll sep (x :: l)
  | x, [] => by simp [pyJoin, terminateAll]
  | x, y :: l => by
    have ih := pyJoin_terminate sep y l
    show x ++ sep ++ pyJoin sep (y :: l) ++ sep = x ++ sep ++ terminateAll sep (y :: l)
    rw [List.append_assoc (x ++ sep), ih]

theorem goodWrites_cons (R : FTPResponse) (T : List (Bool × FTPResponse))
    (hR : ¬ R.code = 150) (hT : goodWrites T = true) :
    goodWrites ((false, R) :: T) = true := by
  cases T with
  | nil => simp [goodWrites, hR]
  | cons p T2 =>
    simp only [goodWrites, Bool.false_eq_true, if_false, if_neg hR]
    exact hT

theorem goodWrites_step (R : FTPResponse) (T : List (Bool × FTPResponse))
    (hT : goodWrites T = true) :
    goodWrites ((false, R) ::
      (if R.code = 150 then (true, (⟨226, chars "Transfer complete"⟩ : FTPResponse)) :: T
       else T)) = true := by
  by_cases hc : R.code = 150
  · simp [goodWrites, isSynth226, hc, hT]
  · rw [if_neg hc]
    exact goodWrites_cons R T hc hT

theorem clientLoop_good : ∀ (inputs : List LoopIn) (s : Session),
    goodWrites (clientLoop s inputs) = true
  | [], _ => rfl
  | i :: rest, s => by
    simp only [clientLoop]
    by_cases hl : pyStrip i.line = []
    · simp [hl, goodWrites]
    · rw [if_neg hl]
      apply goodWrites_step
      split
      · rfl
      · exact clientLoop_good rest _

theorem countQErr_append (a b : List FEvent) :
    countQErr (a ++ b) = countQErr a + countQErr b := by
  simp [countQErr, List.filter_append]

theorem countQDelay_append (a b : List FEvent) :
    countQDelay (a ++ b) = countQDelay a + countQDelay b := by
  simp [countQDelay, List.filter_append]

theorem countSleep_append (a b : List FEvent) :
    countSleep (a ++ b) = countSleep a + countSleep b := by
  simp [countSleep, List.filter_append]

theorem countQErr_policyTrace (mb : MockBehavior) (v : List Char) :
    countQErr (policyTrace mb v) = 1 := by
  unfold policyTrace countQErr
  split <;> simp [List.filter]

theorem countQDelay_policyTrace (mb : MockBehavior) (v : List Char) :
    countQDelay (policyTrace mb v) = 1 := by
  unfold policyTrace countQDelay
  split <;> simp [List.filter]

theorem countSleep_policyTrace (mb : MockBehavior) (v : List Char) :
    countSleep (policyTrace mb v) = if 0 < mb.get_command_delay v then 1 else 0 := by
  unfold policyTrace countSleep
  split <;> simp_all [List.filter]

theorem handle_command_error (mb : MockBehavior) (host : Host) (vfs : VFS)
    (st : HandlerState) (r : Nat) (now : DateTime) (c a : List Char)
    (h : mb.should_return_error (pyUpper c) = true) :
    handle_command mb host vfs st r now c a =
      ⟨⟨500, pyUpper c ++ chars " command failed"⟩, st, [FEvent.qErr (pyUpper c)]⟩ := by
  unfold handle_command
  exact handleUpper_error mb host vfs st r now (pyUpper c) a h

theorem handle_command_PASV (mb : MockBehavior) (host : Host) (vfs : VFS)
    (st : HandlerState) (r : Nat) (now : DateTime) (a : List Char)
    (h : mb.should_return_error (chars "PASV") = false) :
    handle_command mb host vfs st r now (chars "PASV") a =
      ⟨(_setup_passive_mode mb host st r).resp, (_setup_passive_mode mb host st r).st,
       policyTrace mb (chars "PASV") ++ (_setup_passive_mode mb host st r).trace⟩ := by
  unfold handle_command
  rw [show pyUpper (chars "PASV") = chars "PASV" from by decide]
  rw [handleUpper_dispatch mb host vfs st r now (chars "PASV") a h]
  rw [show parseVerb (chars "PASV") = some Verb.vPASV from by decide]
  rfl

theorem handle_command_LIST (mb : MockBehavior) (host : Host) (vfs : VFS)
    (st : HandlerState) (r : Nat) (now : DateTime) (a : List Char)
    (h : mb.should_return_error (chars "LIST") = false) :
    handle_command mb host vfs st r now (chars "LIST") a =
      ⟨(_handle_list_command mb vfs st now).resp, (_handle_list_command mb vfs st now).st,
       policyTrace mb (chars "LIST") ++ (_handle_list_command mb vfs st now).trace⟩ := by
  unfold handle_command
  rw [show pyUpper (chars "LIST") = chars "LIST" from by decide]
  rw [handleUpper_dispatch mb host vfs st r now (chars "LIST") a h]
  rw [show parseVerb (chars "LIST") = some Verb.vLIST from by decide]
  rfl

theorem handle_command_CWD (mb : MockBehavior) (host : Host) (vfs : VFS)
    (st : HandlerState) (r : Nat) (now : DateTime) (a : List Char)
    (h : mb.should_return_error (chars "CWD") = false) :
    handle_command mb host vfs st r now (chars "CWD") a =
      ⟨(_handle_cwd_command mb vfs st a).resp, (_handle_cwd_command mb vfs st a).st,
       policyTrace mb (chars "CWD") ++ (_handle_cwd_command mb vfs st a).trace⟩ := by
  unfold handle_command
  rw [show pyUpper (chars "CWD") = chars "CWD" from by decide]
  rw [handleUpper_dispatch mb host vfs st r now (chars "CWD") a h]
  rw [show parseVerb (chars "CWD") = some Verb.vCWD from by decide]
  rfl

theorem handle_command_STOR (mb : MockBehavior) (host : Host) (vfs : VFS)
    (st : HandlerState) (r : Nat) (now : DateTime) (a : List Char)
    (h : mb.should_return_error (chars "STOR") = false) :
    handle_command mb host vfs st r now (chars "STOR") a =
      ⟨(_handle_stor_command mb st a).resp, (_handle_stor_command mb st a).st,
       policyTrace mb (chars "STOR") ++ (_handle_stor_command mb st a).trace⟩ := by
  unfold handle_command
  rw [show pyUpper (chars "STOR") = chars "STOR" from by decide]
  rw [handleUpper_dispatch mb host vfs st r now (chars "STOR") a h]
  rw [show parseVerb (chars "STOR") = some Verb.vSTOR from by decide]
  rfl

theorem handle_command_QUIT (mb : MockBehavior) (host : Host) (vfs : VFS)
    (st : HandlerState) (r : Nat) (now : DateTime) (a : List Char)
    (h : mb.should_return_error (chars "QUIT") = false) :
    handle_command mb host vfs st r now (chars "QUIT") a =
      ⟨(_handle_quit_command mb st).resp, (_handle_quit_command mb st).st,
       policyTrace mb (chars "QUIT") ++ (_handle_quit_command mb st).trace⟩ := by
  unfold handle_command
  rw [show pyUpper (chars "QUIT") = chars "QUIT" from by decide]
  rw [handleUpper_dispatch mb host vfs st r now (chars "QUIT") a h]
  rw [show parseVerb (chars "QUIT") = some Verb.vQUIT from by decide]
  rfl

theorem pasv_trace (mb : MockBehavior) (host : Host) (st : HandlerState) (r : Nat)
    (h : mb.should_return_error (chars "PASV") = false) :
    (_setup_passive_mode mb host st r).trace = policyTrace mb (chars "PASV") := by
  unfold _setup_passive_mode
  rw [if_neg (by simp [h])]

theorem list_trace (mb : MockBehavior) (vfs : VFS) (st : HandlerState) (now : DateTime)
    (h : mb.should_return_error (chars "LIST") = false) :
    (_handle_list_command mb vfs st now).trace = policyTrace mb (chars "LIST") := by
  unfold _handle_list_command
  rw [if_neg (by simp [h])]
  split <;> rfl

theorem cwd_trace (mb : MockBehavior) (vfs : VFS) (st : HandlerState) (a : List Char)
    (h : mb.should_return_error (chars "CWD") = false) :
    (_handle_cwd_command mb vfs st a).trace = policyTrace mb (chars "CWD") := by
  unfold _handle_cwd_command
  rw [if_neg (by simp [h])]
  split <;> rfl

theorem stor_trace (mb : MockBehavior) (st : HandlerState) (a : List Char)
    (h : mb.should_return_error (chars "STOR") = false) :
    (_handle_stor_command mb st a).trace = policyTrace mb (chars "STOR") := by
  unfold _handle_stor_command
  rw [if_neg (by simp [h])]
  split <;> rfl

theorem quit_trace (mb : MockBehavior) (st : HandlerState)
    (h : mb.should_return_error (chars "QUIT") = false) :
    (_handle_quit_command mb st).trace = policyTrace mb (chars "QUIT") := by
  unfold _handle_quit_command
  rw [if_neg (by simp [h])]

theorem counts_double (mb : MockBehavior) (v : List Char) (tr : List FEvent)
    (htr : tr = policyTrace mb v ++ policyTrace mb v) :
    countQErr tr = 2 ∧ countQDelay tr = 2 ∧
      countSleep tr = (if 0 < mb.get_command_delay v then 2 else 0) := by
  subst htr
  refine ⟨?_, ?_, ?_⟩
  · rw [countQErr_append, countQErr_policyTrace]
  · rw [countQDelay_append, countQDelay_policyTrace]
  · rw [countSleep_append, countSleep_policyTrace]
    by_cases hd : 0 < mb.get_command_delay v <;> simp [hd]

theorem counts_single (mb : MockBehavior) (v : List Char) (tr : List FEvent)
    (htr : tr = policyTrace mb v ++ []) :
    countQErr tr = 1 ∧ countQDelay tr = 1 ∧
      countSleep tr = (if 0 < mb.get_command_delay v then 1 else 0) := by
  subst htr
  refine ⟨?_, ?_, ?_⟩
  · rw [countQErr_append, countQErr_policyTrace]; rfl
  · rw [countQDelay_append, countQDelay_policyTrace]; rfl
  · rw [countSleep_append, countSleep_policyTrace]
    by_cases hd : 0 < mb.get_command_delay v <;> simp [hd, countSleep]

/-- Claim C1: absent an injected fault, the CWD handler resolves its
argument exactly as the specification describes it (`..` pops the last
segment with the root fixed, a leading slash means absolute, anything
else is joined to the cwd with a single separating slash, then runs of
slashes collapse, a single leading slash is forced and a trailing slash
is stripped unless the result is the root), replies 250 and updates the
working directory exactly when the resolved path is a store key, and
replies 550 leaving the state unchanged otherwise. -/
theorem cwd_resolution (mb : MockBehavior) (vfs : VFS) (st : HandlerState)
    (path : List Char) (h : mb.should_return_error (chars "CWD") = false) :
    resolve_cwd st.current_directory path = resolveSpec st.current_directory path ∧
    ((get_dir_info vfs (resolve_cwd st.current_directory path)).isSome = true →
      (_handle_cwd_command mb vfs st path).resp =
        ⟨250, chars "Directory successfully changed."⟩ ∧
      (_handle_cwd_command mb vfs st path).st =
        { st with current_directory := resolve_cwd st.current_directory path }) ∧
    ((get_dir_info vfs (resolve_cwd st.current_directory path)).isSome = false →
      (_handle_cwd_command mb vfs st path).resp = ⟨550, chars "Directory not found."⟩ ∧
      (_handle_cwd_command mb vfs st path).st = st) := by
  refine ⟨resolve_cwd_eq_spec _ _, ?_, ?_⟩
  · intro hsome
    unfold _handle_cwd_command
    rw [if_neg (by simp [h]), if_pos hsome]
    exact ⟨rfl, rfl⟩
  · intro hnone
    unfold _handle_cwd_command
    rw [if_neg (by simp [h]), if_neg (by simp [hnone])]
    exact ⟨rfl, rfl⟩

theorem cwd_resolution_witness :
    (_handle_cwd_command mb0 initialFS initHandler (chars "docs")).resp =
      ⟨250, chars "Directory successfully changed."⟩ :=
  ((cwd_resolution mb0 initialFS initHandler (chars "docs") rfl).2.1 (by decide)).1

/-- Claim C2: whenever the forced-error flag is set for a recognized verb
the dispatcher replies 500 with message `<VERB> command failed` and
leaves the state unchanged, overriding all command-specific logic
(including CWD, whose natural failure code is 550). -/
theorem fault_override (mb : MockBehavior) (host : Host) (vfs : VFS) (st : HandlerState)
    (r : Nat) (now : DateTime) (args v : List Char) (hv : v ∈ recognizedVerbs)
    (h : mb.should_return_error v = true) :
    (handle_command mb host vfs st r now v args).resp =
      ⟨500, v ++ chars " command failed"⟩ ∧
    (handle_command mb host vfs st r now v args).st = st := by
  have hup : pyUpper v = v := by
    simp only [recognizedVerbs, List.mem_cons, List.not_mem_nil, or_false] at hv
    rcases hv with rfl | rfl | rfl | rfl | rfl | rfl | rfl | rfl | rfl <;> decide
  have he := handle_command_error mb host vfs st r now v args (by rw [hup]; exact h)
  rw [he, hup]
  exact ⟨rfl, rfl⟩

theorem fault_override_witness :
    (handle_command mbAll host0 initialFS initHandler 0 now0 (chars "CWD")
      (chars "docs")).resp = ⟨500, chars "CWD" ++ chars " command failed"⟩ :=
  (fault_override mbAll host0 initialFS initHandler 0 now0 (chars "docs") (chars "CWD")
    (by decide) rfl).1

/-- Claim C3: `store_file` splits the path into parent directory and leaf
name; when the parent exists it appends one fresh entry (name, size =
content length, the given bytes) to that directory's file list — keeping
every existing entry, so repeated stores accumulate duplicates — and
leaves every other key untouched; when the parent is absent the store is
returned unchanged. -/
theorem store_file_append (vfs : VFS) (path : List Char) (content : List Nat)
    (now : DateTime) :
    (get_dir_info vfs (pyDirname path) = none →
      store_file vfs path content now = vfs) ∧
    ∀ di, get_dir_info vfs (pyDirname path) = some di →
      get_dir_info (store_file vfs path content now) (pyDirname path) =
        some ⟨di.files ++ [⟨pyBasename path, content.length, now, some content⟩],
              di.dirs⟩ ∧
      ∀ p, p ≠ pyDirname path →
        get_dir_info (store_file vfs path content now) p = get_dir_info vfs p := by
  constructor
  · intro hnone
    unfold store_file
    rw [hnone]
  · intro di hdi
    unfold store_file
    rw [hdi]
    exact ⟨vfsUpdate_self vfs _ _ di hdi, fun p hp => vfsUpdate_other vfs _ _ p hp⟩

theorem store_file_append_witness :
    get_dir_info (store_file initialFS (chars "/docs/new.txt") (pyBytes "hello") now0)
        (chars "/docs") =
      some ⟨docsDir.files ++
        [⟨pyBasename (chars "/docs/new.txt"), (pyBytes "hello").length, now0,
          some (pyBytes "hello")⟩], docsDir.dirs⟩ ∧
    get_dir_info (store_file initialFS (chars "/docs/new.txt") (pyBytes "hello") now0)
        (chars "/") = get_dir_info initialFS (chars "/") := by
  have h := (store_file_append initialFS (chars "/docs/new.txt") (pyBytes "hello") now0).2
      docsDir (by decide)
  rw [show pyDirname (chars "/docs/new.txt") = chars "/docs" from by decide] at h
  exact ⟨h.1, h.2 (chars "/") (by decide)⟩

/-- Claim C4: a successful PASV picks its port as a uniform choice from
the inclusive range 50000 to 50100 and replies 227 whose last two
comma-separated numbers are the quotient and remainder of the port by
256, so they reproduce the port exactly. -/
theorem pasv_port_encoding (mb : MockBehavior) (host : Host) (st : HandlerState)
    (r : Nat) (h : mb.should_return_error (chars "PASV") = false) :
    (_setup_passive_mode mb host st r).resp.code = 227 ∧
    (_setup_passive_mode mb host st r).resp.message =
      chars "Entering Passive Mode (" ++ host.h1 ++ [','] ++ host.h2 ++ [','] ++
        host.h3 ++ [','] ++ host.h4 ++ [','] ++
        natChars (randint 50000 50100 r / 256) ++ [','] ++
        natChars (randint 50000 50100 r % 256) ++ [')'] ∧
    randint 50000 50100 r / 256 * 256 + randint 50000 50100 r % 256 =
      randint 50000 50100 r ∧
    50000 ≤ randint 50000 50100 r ∧ randint 50000 50100 r ≤ 50100 := by
  refine ⟨?_, ?_, ?_, ?_, ?_⟩
  · unfold _setup_passive_mode
    rw [if_neg (by simp [h])]
  · unfold _setup_passive_mode
    rw [if_neg (by simp [h])]
  · omega
  · unfold randint
    omega
  · unfold randint
    omega

theorem pasv_port_encoding_witness :
    (_setup_passive_mode mb0 host0 initHandler 7).resp.code = 227 ∧
    50000 ≤ randint 50000 50100 7 ∧ randint 50000 50100 7 ≤ 50100 := by
  have h := pasv_port_encoding mb0 host0 initHandler 7 rfl
  exact ⟨h.1, h.2.2.2⟩

/-- Claim C5: when no PASV has succeeded in the session (the data-server
attribute is still unset), LIST and STOR — absent an injected fault —
reply 425 `Use PASV first` and leave the session state unchanged: no
pending listing payload and no store target is armed. -/
theorem channel_not_ready (mb : MockBehavior) (host : Host) (vfs : VFS)
    (st : HandlerState) (r : Nat) (now : DateTime) (args : List Char)
    (hlist : mb.should_return_error (chars "LIST") = false)
    (hstor : mb.should_return_error (chars "STOR") = false)
    (hds : st.data_server = false) :
    (handle_command mb host vfs st r now (chars "LIST") args).resp =
      ⟨425, chars "Use PASV first"⟩ ∧
    (handle_command mb host vfs st r now (chars "LIST") args).st = st ∧
    (handle_command mb host vfs st r now (chars "STOR") args).resp =
      ⟨425, chars "Use PASV first"⟩ ∧
    (handle_command mb host vfs st r now (chars "STOR") args).st = st := by
  have hl : _handle_list_command mb vfs st now =
      ⟨⟨425, chars "Use PASV first"⟩, st, policyTrace mb (chars "LIST")⟩ := by
    unfold _handle_list_command
    rw [if_neg (by simp [hlist]), if_neg (by simp [hds])]
  have hs : _handle_stor_command mb st args =
      ⟨⟨425, chars "Use PASV first"⟩, st, policyTrace mb (chars "STOR")⟩ := by
    unfold _handle_stor_command
    rw [if_neg (by simp [hstor]), if_neg (by simp [hds])]
  rw [handle_command_LIST mb host vfs st r now args hlist,
      handle_command_STOR mb host vfs st r now args hstor, hl, hs]
  exact ⟨rfl, rfl, rfl, rfl⟩

theorem channel_not_ready_witness :
    (handle_command mb0 host0 initialFS initHandler 0 now0 (chars "LIST") []).resp =
      ⟨425, chars "Use PASV first"⟩ :=
  (channel_not_ready mb0 host0 initialFS initHandler 0 now0 [] rfl rfl rfl).1

/-- Claim C6: over every control session, the sequence of writes is
well-paired: a reply write is tagged as the loop's synthetic
`226 Transfer complete` exactly when it immediately follows a reply
carrying code 150 (the loop emits it before reading the next line, and
after no other code). -/
theorem synthetic_226_pairing (inputs : List LoopIn) :
    goodWrites (clientWrites inputs) = true := by
  unfold clientWrites
  exact goodWrites_cons _ _ (by decide) (clientLoop_good inputs initSession)

/-- Claim C7: in every reachable session state the current working
directory is a key of the store: it starts at the root (a fixture key),
and no step — commands or data connections (whose stores only append
file entries) — ever breaks this, since the key set never changes. -/
theorem cwd_always_valid_key :
    initHandler.current_directory = chars "/" ∧
    (get_dir_info initialFS (chars "/")).isSome = true ∧
    ∀ steps : List SessionStep,
      (get_dir_info (runSession steps).vfs
        (runSession steps).st.current_directory).isSome = true ∧
      ∀ p, (get_dir_info (runSession steps).vfs p).isSome =
        (get_dir_info initialFS p).isSome :=
  ⟨rfl, by decide, fun steps => ⟨(runSession_inv steps).2, (runSession_inv steps).1⟩⟩

/-- Claim C8 is false as stated: processing a CWD command with a clean
policy queries `should_return_error` twice and `get_command_delay`
twice — once in the dispatcher and once again inside the verb's
handler — not exactly once. -/
theorem fault_query_once_refuted :
    countQErr (handle_command mb0 host0 initialFS initHandler 0 now0 (chars "CWD")
      (chars "docs")).trace = 2 ∧
    countQDelay (handle_command mb0 host0 initialFS initHandler 0 now0 (chars "CWD")
      (chars "docs")).trace = 2 := by
  decide

/-- Claim C8 (amended): the dispatcher queries the policy once per
command, but the five verbs with dedicated handlers (PASV, LIST, CWD,
STOR, QUIT) query `shouldFail` and `delayFor` a second time inside the
handler and suspend twice when the delay is positive; only the four
inline verbs (USER, PASS, PWD, TYPE) query once each and suspend at most
once. -/
theorem fault_query_counts (mb : MockBehavior) (host : Host) (vfs : VFS)
    (st : HandlerState) (r : Nat) (now : DateTime) (args v : List Char) :
    (v ∈ [chars "PASV", chars "LIST", chars "CWD", chars "STOR", chars "QUIT"] →
      mb.should_return_error v = false →
      countQErr (handle_command mb host vfs st r now v args).trace = 2 ∧
      countQDelay (handle_command mb host vfs st r now v args).trace = 2 ∧
      countSleep (handle_command mb host vfs st r now v args).trace =
        (if 0 < mb.get_command_delay v then 2 else 0)) ∧
    (v ∈ [chars "USER", chars "PASS", chars "PWD", chars "TYPE"] →
      mb.should_return_error v = false →
      countQErr (handle_command mb host vfs st r now v args).trace = 1 ∧
      countQDelay (handle_command mb host vfs st r now v args).trace = 1 ∧
      countSleep (handle_command mb host vfs st r now v args).trace =
        (if 0 < mb.get_command_delay v then 1 else 0)) := by
  constructor
  · intro hv h
    simp only [List.mem_cons, List.not_mem_nil, or_false] at hv
    rcases hv with rfl | rfl | rfl | rfl | rfl
    · rw [handle_command_PASV mb host vfs st r now args h]
      exact counts_double mb (chars "PASV") _ (by rw [pasv_trace mb host st r h])
    · rw [handle_command_LIST mb host vfs st r now args h]
      exact counts_double mb (chars "LIST") _ (by rw [list_trace mb vfs st now h])
    · rw [handle_command_CWD mb host vfs st r now args h]
      exact counts_double mb (chars "CWD") _ (by rw [cwd_trace mb vfs st args h])
    · rw [handle_command_STOR mb host vfs st r now args h]
      exact counts_double mb (chars "STOR") _ (by rw [stor_trace mb st args h])
    · rw [handle_command_QUIT mb host vfs st r now args h]
      exact counts_double mb (chars "QUIT") _ (by rw [quit_trace mb st h])
  · intro hv h
    simp only [List.mem_cons, List.not_mem_nil, or_false] at hv
    rcases hv with rfl | rfl | rfl | rfl
    · unfold handle_command
      rw [show pyUpper (chars "USER") = chars "USER" from by decide]
      rw [handleUpper_dispatch mb host vfs st r now (chars "USER") args h]
      exact counts_single mb (chars "USER") _ rfl
    · unfold handle_command
      rw [show pyUpper (chars "PASS") = chars "PASS" from by decide]
      rw [handleUpper_dispatch mb host vfs st r now (chars "PASS") args h]
      exact counts_single mb (chars "PASS") _ rfl
    · unfold handle_command
      rw [show pyUpper (chars "PWD") = chars "PWD" from by decide]
      rw [handleUpper_dispatch mb host vfs st r now (chars "PWD") args h]
      exact counts_single mb (chars "PWD") _ rfl
    · unfold handle_command
      rw [show pyUpper (chars "TYPE") = chars "TYPE" from by decide]
      rw [handleUpper_dispatch mb host vfs st r now (chars "TYPE") args h]
      exact counts_single mb (chars "TYPE") _ rfl

theorem fault_query_counts_witness :
    countQErr (handle_command mb0 host0 initialFS initHandler 0 now0 (chars "STOR")
      []).trace = 2 :=
  ((fault_query_counts mb0 host0 initialFS initHandler 0 now0 [] (chars "STOR")).1
    (by decide) rfl).1

/-- Claim C9: for a directory present in the store, the rendered listing
is the fixed `.` and `..` placeholder lines, then one line per child
directory in directory order, then one line per file entry in entry
order (real size and timestamp when the lookup finds the file, else the
zero-size placeholder), every line terminated by CRLF with a trailing
CRLF ending the payload. -/
theorem listing_format (vfs : VFS) (st : HandlerState) (now : DateTime)
    (path : List Char) (di : DirectoryInfo) (hdi : get_dir_info vfs path = some di) :
    get_directory_listing vfs st now path =
      terminateAll (chars "\r\n")
        ([chars "drwxrwxrwx 3 owner group 4096 Jan 01 18:00 .",
          chars "drwxrwxrwx 3 owner group 4096 Jan 01 18:00 .."] ++
         di.dirs.map (specDirLine now) ++ di.files.map (specFileLine vfs st now)) := by
  unfold get_directory_listing
  rw [hdi]
  exact pyJoin_terminate (chars "\r\n") _ _

theorem listing_format_witness :
    get_directory_listing initialFS initHandler now0 (chars "/") =
      terminateAll (chars "\r\n")
        ([chars "drwxrwxrwx 3 owner group 4096 Jan 01 18:00 .",
          chars "drwxrwxrwx 3 owner group 4096 Jan 01 18:00 .."] ++
         rootDir.dirs.map (specDirLine now0) ++
         rootDir.files.map (specFileLine initialFS initHandler now0)) :=
  listing_format initialFS initHandler now0 (chars "/") rootDir (by decide)

/-- Claim C10: from any reachable session state (whose working directory
is therefore a store key), CWD with an empty argument — absent an
injected fault — replies 250 and leaves the working directory unchanged:
joining the empty segment and stripping the trailing slash maps the cwd
back to itself. -/
theorem cwd_empty_identity (steps : List SessionStep) (mb : MockBehavior) (host : Host)
    (r : Nat) (now : DateTime) (h : mb.should_return_error (chars "CWD") = false) :
    (handle_command mb host (runSession steps).vfs (runSession steps).st r now
      (chars "CWD") []).resp = ⟨250, chars "Directory successfully changed."⟩ ∧
    (handle_command mb host (runSession steps).vfs (runSession steps).st r now
      (chars "CWD") []).st = (runSession steps).st := by
  obtain ⟨hkeys, hcwd⟩ := runSession_inv steps
  have hfix : (get_dir_info initialFS (runSession steps).st.current_directory).isSome
      = true := by
    rw [← hkeys]
    exact hcwd
  have hres : resolve_cwd (runSession steps).st.current_directory [] =
      (runSession steps).st.current_directory := by
    rcases fixture_keys _ hfix with h5 | h5 | h5 | h5 | h5 <;> rw [h5] <;> decide
  have hcmd : _handle_cwd_command mb (runSession steps).vfs (runSession steps).st [] =
      ⟨⟨250, chars "Directory successfully changed."⟩, (runSession steps).st,
       policyTrace mb (chars "CWD")⟩ := by
    unfold _handle_cwd_command
    rw [if_neg (by simp [h]), hres, if_pos hcwd]
  rw [handle_command_CWD mb host (runSession steps).vfs (runSession steps).st r now [] h,
      hcmd]
  exact ⟨rfl, rfl⟩

theorem cwd_empty_identity_witness :
    (handle_command mb0 host0 (runSession []).vfs (runSession []).st 0 now0
      (chars "CWD") []).resp = ⟨250, chars "Directory successfully changed."⟩ :=
  (cwd_empty_identity [] mb0 host0 0 now0 rfl).1

end FTPMock
